import Mathlib

/-
Verification of the Genesis bootstrap, RBAC authorization, configuration and
movie-store slices of the go-api-basic repository, against its specification.

The Go code is shallowly embedded: the database pool and the in-flight
transaction buffer are explicit state, every fallible store call is driven by
an oracle that decides whether the driver reports an error and how many rows
it claims were affected, and random UUIDs / external IDs / clock readings are
drawn from a fresh-value counter (distinct draws model the distinct random
values the source relies on).
-/

namespace GoApiBasic

/-! ## Error model (domain/errs) -/

/-- Error kinds used by the seeded slice of the `errs` package:
`Validation`, `Database`, `Internal`, `NotExist`. -/
inductive ErrKind where
  | Validation
  | Database
  | Internal
  | NotExist
deriving DecidableEq

/-- An error value: its classification kind plus a message. -/
structure Err where
  kind : ErrKind
  msg : String
deriving DecidableEq

/-- Build an error from a kind and a message, as `errs.E(kind, "msg")` does. -/
def errE (k : ErrKind) (msg : String) : Err := ⟨k, msg⟩

/-- Wrap an existing error with a kind, as `errs.E(kind, err)` does: the
outermost kind classifies the error. -/
def errWrap (k : ErrKind) (e : Err) : Err := ⟨k, e.msg⟩

/-! ## Domain entities (domain/org, domain/app, domain/person, domain/user,
domain/audit) -/

/-- An org kind row/value (`org.Kind`): ID, external ID, description. -/
structure OrgKind where
  id : Nat
  extlID : String
  description : String
deriving DecidableEq

/-- The zero value of `org.Kind`, as a freshly constructed Go `org.Org` has
before its `Kind` field is assigned. -/
def OrgKind.nil : OrgKind := ⟨0, "", ""⟩

/-- An organization (`org.Org`). -/
structure Org where
  id : Nat
  extlID : Nat
  name : String
  description : String
  kind : OrgKind
deriving DecidableEq

/-- An API key (`app.APIKey`): ciphertext (modelled as the fresh value the
random generator produced) and a deactivation date. -/
structure APIKey where
  ciphertext : Nat
  deactivationDate : Nat
deriving DecidableEq

/-- An application (`app.App`); `orgID` records `App.Org.ID`, the only field
of the embedded `Org` that the seeding path reads back. -/
structure App where
  id : Nat
  extlID : Nat
  orgID : Nat
  name : String
  description : String
  apiKeys : List APIKey
deriving DecidableEq

/-- A person profile (`person.Profile`); `personID` records the ID of the
`person.Person` the profile references. -/
structure Profile where
  id : Nat
  personID : Nat
  firstName : String
  lastName : String
deriving DecidableEq

/-- A user (`user.User`). -/
structure User where
  id : Nat
  username : String
  orgID : Nat
  profile : Profile
deriving DecidableEq

/-- An audit value (`audit.Audit`): acting app, acting user, moment. -/
structure Audit where
  app : App
  user : User
  moment : Nat
deriving DecidableEq

/-- A simple audit (`audit.SimpleAudit`): first and last audit of an entity. -/
structure SimpleAudit where
  first : Audit
  last : Audit
deriving DecidableEq

/-- The (app ID, user ID, timestamp) triple an insert statement actually
persists in its create/update audit columns. -/
structure AuditStamp where
  appID : Nat
  userID : Nat
  moment : Nat
deriving DecidableEq

/-- The audit columns written for an `Audit` value. -/
def Audit.stamp (a : Audit) : AuditStamp := ⟨a.app.id, a.user.id, a.moment⟩

/-! ## Database rows and the store state -/

/-- A persisted org_kind row. -/
structure OrgKindRow where
  id : Nat
  extlID : String
  description : String
  createAudit : AuditStamp
  updateAudit : AuditStamp
deriving DecidableEq

/-- A persisted org row; `kindExtlID` denormalizes the kind join that
`FindOrgsByKindExtlID` performs. -/
structure OrgRow where
  id : Nat
  extlID : Nat
  name : String
  description : String
  kindID : Nat
  kindExtlID : String
  createAudit : AuditStamp
  updateAudit : AuditStamp
deriving DecidableEq

/-- A persisted app row. -/
structure AppRow where
  id : Nat
  extlID : Nat
  orgID : Nat
  name : String
  description : String
  createAudit : AuditStamp
  updateAudit : AuditStamp
deriving DecidableEq

/-- A persisted app_api_key row. -/
structure AppAPIKeyRow where
  apiKey : Nat
  appID : Nat
  deactvDate : Nat
  createAudit : AuditStamp
  updateAudit : AuditStamp
deriving DecidableEq

/-- A persisted user row (the observable result of the Person + Profile +
User insert sequence). -/
structure UserRow where
  id : Nat
  username : String
  orgID : Nat
  firstName : String
  lastName : String
  createAudit : AuditStamp
  updateAudit : AuditStamp
deriving DecidableEq

/-- The relational store state: one list of rows per seeded table. -/
structure Store where
  orgKinds : List OrgKindRow
  orgs : List OrgRow
  apps : List AppRow
  appApiKeys : List AppAPIKeyRow
  users : List UserRow
deriving DecidableEq

/-- The empty store. -/
def Store.empty : Store := ⟨[], [], [], [], []⟩

/-- Append every table of `e` to the corresponding table of `d` (used when a
transaction buffer is committed onto the pool). -/
def Store.append (d e : Store) : Store :=
  ⟨d.orgKinds ++ e.orgKinds, d.orgs ++ e.orgs, d.apps ++ e.apps,
   d.appApiKeys ++ e.appApiKeys, d.users ++ e.users⟩

/-- Whether an org-kind row with the given external ID exists, as
`orgstore.FindOrgKindByExtlID` observes it. -/
def Store.hasKindWithExtl (d : Store) (extl : String) : Bool :=
  d.orgKinds.any (fun k => k.extlID == extl)

/-- The org rows whose kind has the given external ID, as
`orgstore.FindOrgsByKindExtlID` returns them. -/
def Store.orgsOfKindExtl (d : Store) (extl : String) : List OrgRow :=
  d.orgs.filter (fun o => o.kindExtlID == extl)

/-! ## The store oracle

Each fallible driver call made during `Seed` is decided by one oracle field:
whether the call reports an error, and, for an insert, how many rows the
driver claims were affected. `Oracle.ok` is the well-behaved store in which
every statement succeeds and reports exactly one affected row. -/

/-- Outcome of one insert statement: the driver either returns an error, or
succeeds while reporting `n` affected rows. -/
inductive InsertOutcome where
  | err
  | rows (n : Int)
deriving DecidableEq

/-- One oracle field per fallible call site of the seeding path, in source
order. -/
structure Oracle where
  findKindErr : Bool
  findOrgsErr : Bool
  beginTxErr : Bool
  genesisAddKeyErr : Bool
  genesisKindIns : InsertOutcome
  testKindIns : InsertOutcome
  standardKindIns : InsertOutcome
  genesisOrgIns : InsertOutcome
  genesisAppIns : InsertOutcome
  genesisApiKeyIns : InsertOutcome
  gabrielUserIns : InsertOutcome
  collinsUserIns : InsertOutcome
  testAddKeyErr : Bool
  testOrgIns : InsertOutcome
  testAppIns : InsertOutcome
  testApiKeyIns : InsertOutcome
  testUserIns : InsertOutcome
  commitTxErr : Bool
deriving DecidableEq

/-- The well-behaved store: no errors, every insert affects exactly 1 row. -/
def Oracle.ok : Oracle :=
  ⟨false, false, false, false,
   .rows 1, .rows 1, .rows 1, .rows 1, .rows 1, .rows 1, .rows 1, .rows 1,
   false, .rows 1, .rows 1, .rows 1, .rows 1, false⟩

/-! ## Execution state and the seed monad -/

/-- State threaded through one `Seed` call: the committed pool, the pending
transaction buffer, whether a transaction is open, counters of successful
BeginTx / CommitTx / RollbackTx calls, and the fresh-value counter that
models `uuid.New`, `secure.NewID`, the random key generator and `time.Now`. -/
structure SeedState where
  pool : Store
  buf : Store
  txOpen : Bool
  begins : Nat
  commits : Nat
  rollbacks : Nat
  gen : Nat
deriving DecidableEq

/-- Initial state for a `Seed` call over pool `db`. -/
def SeedState.init (db : Store) : SeedState := ⟨db, Store.empty, false, 0, 0, 0, 0⟩

/-- The seeding computation monad: explicit state passing plus early-exit
errors, mirroring Go's `if err != nil` propagation. -/
def SeedM (α : Type) : Type := SeedState → Except Err α × SeedState

instance : Monad SeedM where
  pure a := fun s => (Except.ok a, s)
  bind m f := fun s =>
    match m s with
    | (Except.ok a, s1) => f a s1
    | (Except.error e, s1) => (Except.error e, s1)

/-- Fail with error `e`, leaving the state unchanged. -/
def throwE {α : Type} (e : Err) : SeedM α := fun s => (Except.error e, s)

/-- Draw the next fresh value (models one call to `uuid.New`, to
`secure.NewID`, to the random string generator, or to `time.Now`). -/
def fresh : SeedM Nat := fun s => (Except.ok s.gen, { s with gen := s.gen + 1 })

/-- Modelled from the spec: `Datastorer.BeginTx` starts the single seed
transaction; a store failure is surfaced as a `Database` error. (Only the
`Datastorer` interface is in the sources; its implementation is external.) -/
def beginTx (ω : Oracle) : SeedM Unit := fun s =>
  if ω.beginTxErr then (Except.error (errE .Database "BeginTx"), s)
  else (Except.ok (), { s with txOpen := true, begins := s.begins + 1 })

/-- Modelled from the spec: `Datastorer.RollbackTx` discards the pending
transaction and returns the original cause error wrapped, not a
rollback-specific error. -/
def rollbackTx {α : Type} (e : Err) : SeedM α := fun s =>
  (Except.error e,
   { s with txOpen := false, buf := Store.empty, rollbacks := s.rollbacks + 1 })

/-- Modelled from the spec: `Datastorer.CommitTx` commits the pending buffer
onto the pool; on a store failure nothing of the transaction persists and a
`Database` error is returned. -/
def commitTx (ω : Oracle) : SeedM Unit := fun s =>
  if ω.commitTxErr then
    (Except.error (errE .Database "CommitTx"), { s with txOpen := false, buf := Store.empty })
  else
    (Except.ok (),
     { s with pool := s.pool.append s.buf, buf := Store.empty, txOpen := false,
              commits := s.commits + 1 })

/-- One insert statement against the open transaction: on `err` the driver
error (a raw `Database` error) is returned; on `rows n` the statement
succeeds reporting `n` affected rows, and the row enters the transaction
buffer when the driver actually wrote it (`n = 1`). -/
def insertRow (out : InsertOutcome) (w : Store → Store) (opName : String) : SeedM Int :=
  fun s =>
    match out with
    | .err => (Except.error (errE .Database opName), s)
    | .rows n => (Except.ok n, if n = 1 then { s with buf := w s.buf } else s)

/-- Run `m`; on any error, roll the transaction back with the error wrapped
under kind `k` — the Go pattern
`if err != nil { return s.Datastorer.RollbackTx(ctx, tx, errs.E(k, err)) }`. -/
def orRollback {α : Type} (k : ErrKind) (m : SeedM α) : SeedM α := fun s =>
  match m s with
  | (Except.ok a, s1) => (Except.ok a, s1)
  | (Except.error e, s1) => rollbackTx (errWrap k e) s1

/-! ## The Genesis seeding workflow (service package) -/

/-- Go's `strings.TrimSpace`, modelled on the character list: drop leading
and trailing whitespace. -/
def trimSpace (s : String) : String :=
  ⟨((s.data.dropWhile Char.isWhitespace).reverse.dropWhile Char.isWhitespace).reverse⟩

/-- The org-kind external identifier checked and seeded first
(`genesisOrgTypeString`). -/
def genesisOrgTypeString : String := "genesis"

/-- Fixed far-future deactivation sentinel for the seeded API keys,
`time.Date(2099, 12, 31, 0, 0, 0, 0, time.UTC)`. -/
def keyDeactivation : Nat := 20991231

/-- Description of the genesis org, verbatim from `seedGenesis`. -/
def genesisOrgDescription : String :=
  "The genesis org represents the first organization created in the database and exists purely for the administrative purpose of creating other organizations, apps and users."

/-- Description of the genesis app, verbatim from `seedGenesis`. -/
def genesisAppDescription : String :=
  "App created as part of Genesis event. To be used solely for creating other apps, orgs and users."

/-- Description of the test org, verbatim from `seedTest`. -/
def testOrgDescription : String := "The test org is self explanatory"

/-- Description of the test app, verbatim from `seedTest`. -/
def testAppDescription : String := "The test app is self explanatory"

/-- `genesisHasOccurred`: query the pool for an org-kind row with external ID
"genesis" (a non-ErrNoRows failure is a `Database` error), then for org rows
of kind "genesis" (a failure is a `Database` error); if either exists, fail
with `Validation` ("No prior data should exist when executing Genesis
Service"). Reads only the pool, writes nothing. -/
def genesisHasOccurred (ω : Oracle) : SeedM Unit := fun s =>
  if ω.findKindErr then (Except.error (errE .Database "FindOrgKindByExtlID"), s)
  else
    let hasGenesisOrgTypeRow := s.pool.hasKindWithExtl genesisOrgTypeString
    if ω.findOrgsErr then (Except.error (errE .Database "FindOrgsByKindExtlID"), s)
    else
      let hasGenesisOrgRow := !((s.pool.orgsOfKindExtl genesisOrgTypeString).length == 0)
      if hasGenesisOrgTypeRow || hasGenesisOrgRow then
        (Except.error (errE .Validation "No prior data should exist when executing Genesis Service"), s)
      else (Except.ok (), s)

/-- Modelled from the spec: `App.AddNewKey(randomGenerator, encryptionKey,
deactivationDate)` draws random key material, encrypts it, and appends the
resulting API key to the app; a generator/cryptographic failure is an error.
(The `domain/app` implementation is not among the sources.) -/
def App.AddNewKey (failKey : Bool) (a : App) (deactivation : Nat) : SeedM App :=
  if failKey then throwE (errE .Internal "random string generation failed")
  else do
    let cipher ← fresh
    pure { a with apiKeys := a.apiKeys ++ [⟨cipher, deactivation⟩] }

/-- The fields of `orgstore.CreateOrgKindParams` read back by `seedGenesis`. -/
structure CreateOrgKindParams where
  orgKindID : Nat
  orgKindExtlID : String
  orgKindDesc : String
deriving DecidableEq

/-- Modelled from the spec: the shared body of `createGenesisOrgKind`,
`createTestOrgKind` and `createStandardOrgKind` — insert one org_kind row
with the given external ID and the caller's audit, require the driver to
report exactly one affected row, and return the params; errors are returned
raw for the caller to wrap and roll back. (The `orgstore` helpers are not
among the sources.) -/
def createOrgKindDB (out : InsertOutcome) (extl desc : String) (adt : AuditStamp) :
    SeedM CreateOrgKindParams := do
  let kid ← fresh
  let row : OrgKindRow := ⟨kid, extl, desc, adt, adt⟩
  let n ← insertRow out (fun b => { b with orgKinds := b.orgKinds ++ [row] })
            ("CreateOrgKind " ++ extl)
  if n = 1 then pure ⟨kid, extl, desc⟩
  else throwE (errE .Database ("rows affected should be 1, actual: " ++ toString n))

/-- Modelled from the spec: `createGenesisOrgKind` inserts the "genesis"
org-kind row. -/
def createGenesisOrgKind (ω : Oracle) (adt : AuditStamp) : SeedM CreateOrgKindParams :=
  createOrgKindDB ω.genesisKindIns genesisOrgTypeString "genesis org kind" adt

/-- Modelled from the spec: `createTestOrgKind` inserts the "test" org-kind
row. -/
def createTestOrgKind (ω : Oracle) (adt : AuditStamp) : SeedM CreateOrgKindParams :=
  createOrgKindDB ω.testKindIns "test" "test org kind" adt

/-- Modelled from the spec: `createStandardOrgKind` inserts the "standard"
org-kind row. -/
def createStandardOrgKind (ω : Oracle) (adt : AuditStamp) : SeedM CreateOrgKindParams :=
  createOrgKindDB ω.standardKindIns "standard" "standard org kind" adt

/-- Modelled from the spec: `createOrgDB` persists one org row carrying the
SimpleAudit's first/last audits as its create/update columns; on a store
error or an affected-row count other than 1 it rolls the whole transaction
back with a `Database` error. (Not among the sources; its callers return its
error without further wrapping.) -/
def createOrgDB (out : InsertOutcome) (o : Org) (sa : SimpleAudit) : SeedM Unit := do
  let row : OrgRow := ⟨o.id, o.extlID, o.name, o.description, o.kind.id, o.kind.extlID,
                       sa.first.stamp, sa.last.stamp⟩
  let n ← orRollback .Database
            (insertRow out (fun b => { b with orgs := b.orgs ++ [row] }) "CreateOrg")
  if n = 1 then pure ()
  else rollbackTx (errE .Database ("rows affected should be 1, actual: " ++ toString n))

/-- Modelled from the spec: `createUserDB` persists the user via the Person,
Profile and User insert sequence (modelled as the single user row it
produces), attributing the row to the given audit; on a store error or an
affected-row count other than 1 it rolls the whole transaction back with a
`Database` error. (Not among the sources; its callers return its error
without further wrapping.) -/
def createUserDB (out : InsertOutcome) (u : User) (adt : Audit) : SeedM Unit := do
  let row : UserRow := ⟨u.id, u.username, u.orgID, u.profile.firstName, u.profile.lastName,
                        adt.stamp, adt.stamp⟩
  let n ← orRollback .Database
            (insertRow out (fun b => { b with users := b.users ++ [row] }) "CreateUser")
  if n = 1 then pure ()
  else rollbackTx (errE .Database ("rows affected should be 1, actual: " ++ toString n))

/-- `createPeterGabriel`: build the first admin user (person, profile with
"Peter"/"Gabriel", username "pgabriel") and an audit of the root app, that
user and the current moment. -/
def createPeterGabriel (o : Org) (a : App) : SeedM (User × Audit) := do
  let prsnID ← fresh
  let pflID ← fresh
  let pgPfl : Profile := ⟨pflID, prsnID, "Peter", "Gabriel"⟩
  let userID ← fresh
  let pgUser : User := ⟨userID, trimSpace "pgabriel", o.id, pgPfl⟩
  let moment ← fresh
  pure (pgUser, ⟨a, pgUser, moment⟩)

/-- `createPhilCollins`: build the second admin user (person, profile with
"Phil"/"Collins", username "pcollins") and an audit of the root app, that
user and the current moment. -/
def createPhilCollins (o : Org) (a : App) : SeedM (User × Audit) := do
  let prsnID ← fresh
  let pflID ← fresh
  let pcPfl : Profile := ⟨pflID, prsnID, "Phil", "Collins"⟩
  let userID ← fresh
  let pcUser : User := ⟨userID, trimSpace "pcollins", o.id, pcPfl⟩
  let moment ← fresh
  pure (pcUser, ⟨a, pcUser, moment⟩)

/-- The app_api_key insert loop shared by `seedGenesis` and `seedTest`: for
each key of the app, insert one row attributed to the audit; a store error
or an affected-row count other than 1 rolls the transaction back with a
`Database` error. -/
def insertAppAPIKeys (out : InsertOutcome) (appID : Nat) (adt : AuditStamp) :
    List APIKey → SeedM Unit
  | [] => pure ()
  | key :: rest => do
    let row : AppAPIKeyRow := ⟨key.ciphertext, appID, key.deactivationDate, adt, adt⟩
    let apiKeyRowsAffected ← orRollback .Database
      (insertRow out (fun b => { b with appApiKeys := b.appApiKeys ++ [row] })
        "CreateAppAPIKey")
    if apiKeyRowsAffected = 1 then insertAppAPIKeys out appID adt rest
    else
      rollbackTx
        (errE .Database ("rows affected should be 1, actual: " ++ toString apiKeyRowsAffected))

/-- The set of entities seeded for one org (`seedSet`). -/
structure SeedSet where
  org : Org
  app : App
  user : User
  audit : SimpleAudit
deriving DecidableEq

/-- `GenesisService.seedGenesis`: build the genesis org and the WOPR app, add
one API key, build the two admin users and their audits, insert the three
org kinds (genesis, test, standard), then persist the org, app, API keys and
both users, each failure rolling the transaction back with the kind the
source assigns. Returns the genesis seed set and the test org kind. -/
def seedGenesis (ω : Oracle) : SeedM (SeedSet × OrgKind) := do
  let orgID ← fresh
  let orgExtl ← fresh
  let o0 : Org := ⟨orgID, orgExtl, "genesis", genesisOrgDescription, OrgKind.nil⟩
  let appID ← fresh
  let appExtl ← fresh
  let a0 : App := ⟨appID, appExtl, o0.id, "WOPR", genesisAppDescription, []⟩
  let a ← orRollback .Internal (App.AddNewKey ω.genesisAddKeyErr a0 keyDeactivation)
  let (pgUser, pgAudit) ← createPeterGabriel o0 a
  let (pcUser, pcAudit) ← createPhilCollins o0 a
  let genesisKindParams ← orRollback .Database (createGenesisOrgKind ω pgAudit.stamp)
  let o : Org := { o0 with
    kind := ⟨genesisKindParams.orgKindID, genesisKindParams.orgKindExtlID,
             genesisKindParams.orgKindDesc⟩ }
  let testKindParams ← orRollback .Database (createTestOrgKind ω pgAudit.stamp)
  let tk : OrgKind := ⟨testKindParams.orgKindID, testKindParams.orgKindExtlID,
                       testKindParams.orgKindDesc⟩
  let _ ← orRollback .Database (createStandardOrgKind ω pgAudit.stamp)
  let sa : SimpleAudit := ⟨pgAudit, pgAudit⟩
  createOrgDB ω.genesisOrgIns o sa
  let appRow : AppRow := ⟨a.id, a.extlID, a.orgID, a.name, a.description,
                          pgAudit.stamp, pgAudit.stamp⟩
  let rowsAffected ← orRollback .Database
    (insertRow ω.genesisAppIns (fun b => { b with apps := b.apps ++ [appRow] }) "CreateApp")
  if rowsAffected = 1 then pure ()
  else rollbackTx (errE .Database ("rows affected should be 1, actual: " ++ toString rowsAffected))
  insertAppAPIKeys ω.genesisApiKeyIns a.id pgAudit.stamp a.apiKeys
  createUserDB ω.gabrielUserIns pgUser pgAudit
  createUserDB ω.collinsUserIns pcUser pcAudit
  pure (⟨o, a, pgUser, sa⟩, tk)

/-- `GenesisService.seedTest`: build the test org (with the test kind from
`seedGenesis`), the test app with one API key, the single test user Steve
Hackett and one audit; persist org, app, API keys and user identically to
the genesis set. -/
def seedTest (ω : Oracle) (k : OrgKind) : SeedM SeedSet := do
  let orgID ← fresh
  let orgExtl ← fresh
  let o : Org := ⟨orgID, orgExtl, "test", testOrgDescription, k⟩
  let appID ← fresh
  let appExtl ← fresh
  let a0 : App := ⟨appID, appExtl, o.id, "test", testAppDescription, []⟩
  let a ← orRollback .Internal (App.AddNewKey ω.testAddKeyErr a0 keyDeactivation)
  let prsnID ← fresh
  let pflID ← fresh
  let pfl : Profile := ⟨pflID, prsnID, "Steve", "Hackett"⟩
  let userID ← fresh
  let u : User := ⟨userID, trimSpace "shackett", o.id, pfl⟩
  let moment ← fresh
  let adt : Audit := ⟨a, u, moment⟩
  let sa : SimpleAudit := ⟨adt, adt⟩
  createOrgDB ω.testOrgIns o sa
  let appRow : AppRow := ⟨a.id, a.extlID, a.orgID, a.name, a.description,
                          adt.stamp, adt.stamp⟩
  let rowsAffected ← orRollback .Database
    (insertRow ω.testAppIns (fun b => { b with apps := b.apps ++ [appRow] }) "CreateApp")
  if rowsAffected = 1 then pure ()
  else rollbackTx (errE .Database ("rows affected should be 1, actual: " ++ toString rowsAffected))
  insertAppAPIKeys ω.testApiKeyIns a.id adt.stamp a.apiKeys
  createUserDB ω.testUserIns u adt
  pure ⟨o, a, u, sa⟩

/-! ## Responses and the Seed entry point -/

/-- Modelled from the spec: the org view of the genesis response — external
ID, name, description, kind and audit metadata (`newOrgResponse` is not
among the sources). -/
structure OrgResponse where
  extlID : Nat
  name : String
  description : String
  kindExtlID : String
  createAudit : AuditStamp
  updateAudit : AuditStamp
deriving DecidableEq

/-- Modelled from the spec: the app view of the genesis response
(`newAppResponse` is not among the sources). -/
structure AppResponse where
  extlID : Nat
  name : String
  description : String
  createAudit : AuditStamp
  updateAudit : AuditStamp
deriving DecidableEq

/-- `GenesisResponse`: the genesis org and app views. -/
structure GenesisResponse where
  org : OrgResponse
  app : AppResponse
deriving DecidableEq

/-- `TestResponse`: the test org and app views. -/
structure TestResponse where
  org : OrgResponse
  app : AppResponse
deriving DecidableEq

/-- `FullGenesisResponse`: both the genesis and the test responses. -/
structure FullGenesisResponse where
  genesis : GenesisResponse
  test : TestResponse
deriving DecidableEq

/-- Modelled from the spec: `newOrgResponse` annotates an org with its audit
metadata. -/
def newOrgResponse (o : Org) (sa : SimpleAudit) : OrgResponse :=
  ⟨o.extlID, o.name, o.description, o.kind.extlID, sa.first.stamp, sa.last.stamp⟩

/-- Modelled from the spec: `newAppResponse` annotates an app with its audit
metadata. -/
def newAppResponse (a : App) (sa : SimpleAudit) : AppResponse :=
  ⟨a.extlID, a.name, a.description, sa.first.stamp, sa.last.stamp⟩

/-- `GenesisService.Seed`: precondition check against the pool, begin one
transaction, seed the genesis set, seed the test set, commit, and assemble
the composite response; every failure propagates unchanged. -/
def Seed (ω : Oracle) : SeedM FullGenesisResponse := do
  genesisHasOccurred ω
  beginTx ω
  let (genesisSet, testKind) ← seedGenesis ω
  let testSet ← seedTest ω testKind
  commitTx ω
  pure ⟨⟨newOrgResponse genesisSet.org genesisSet.audit,
         newAppResponse genesisSet.app genesisSet.audit⟩,
        ⟨newOrgResponse testSet.org testSet.audit,
         newAppResponse testSet.app testSet.audit⟩⟩

/-- Run one `Seed` call against pool `db` under store behavior `ω`. -/
def runSeed (db : Store) (ω : Oracle) : Except Err FullGenesisResponse × SeedState :=
  Seed ω (SeedState.init db)

/-- Whether a result is an error. -/
def isErr {ε α : Type} : Except ε α → Bool
  | .ok _ => false
  | .error _ => true

/-- The kind of the error a result carries, if any. -/
def resKind {α : Type} : Except Err α → Option ErrKind
  | .ok _ => none
  | .error e => some e.kind

/-! ## Unfolding lemmas for the seed monad -/

theorem SeedM.bind_apply {α β : Type} (m : SeedM α) (f : α → SeedM β) (s : SeedState) :
    (m >>= f) s =
      match m s with
      | (Except.ok a, s1) => f a s1
      | (Except.error e, s1) => (Except.error e, s1) := rfl

theorem SeedM.pure_apply {α : Type} (a : α) (s : SeedState) :
    (pure a : SeedM α) s = (Except.ok a, s) := rfl

theorem trimSpace_pgabriel : trimSpace "pgabriel" = "pgabriel" := by decide

theorem trimSpace_pcollins : trimSpace "pcollins" = "pcollins" := by decide

theorem trimSpace_shackett : trimSpace "shackett" = "shackett" := by decide

/-! ## Pool preservation

The committed pool is written only by a successful `commitTx`; everything
else touches the transaction buffer and the counters. These predicates and
combinators let us prove once and for all that a failed `Seed` leaves the
pool exactly as it found it. -/

/-- `m` never changes the committed pool. -/
def PoolPreserving {α : Type} (m : SeedM α) : Prop :=
  ∀ s : SeedState, ((m s).2).pool = s.pool

/-- `m` leaves the committed pool unchanged whenever it returns an error. -/
def ErrPoolPreserving {α : Type} (m : SeedM α) : Prop :=
  ∀ s : SeedState, isErr (m s).1 = true → ((m s).2).pool = s.pool

theorem PoolPreserving.toErr {α : Type} {m : SeedM α} (hm : PoolPreserving m) :
    ErrPoolPreserving m := fun s _ => hm s

theorem poolPreserving_pure {α : Type} (a : α) : PoolPreserving (pure a : SeedM α) :=
  fun _ => rfl

theorem poolPreserving_bind {α β : Type} {m : SeedM α} {f : α → SeedM β}
    (hm : PoolPreserving m) (hf : ∀ a, PoolPreserving (f a)) :
    PoolPreserving (m >>= f) := by
  intro s
  have h1 := hm s
  rw [SeedM.bind_apply]
  rcases hms : m s with ⟨r, s1⟩
  rw [hms] at h1
  cases r with
  | ok a => exact (hf a s1).trans h1
  | error e => exact h1

theorem errPoolPreserving_bind {α β : Type} {m : SeedM α} {f : α → SeedM β}
    (hm : PoolPreserving m) (hf : ∀ a, ErrPoolPreserving (f a)) :
    ErrPoolPreserving (m >>= f) := by
  intro s
  have h1 := hm s
  rw [SeedM.bind_apply]
  rcases hms : m s with ⟨r, s1⟩
  rw [hms] at h1
  cases r with
  | ok a => exact fun he => (hf a s1 he).trans h1
  | error e => exact fun _ => h1

theorem errPoolPreserving_bind_pure {α β : Type} {m : SeedM α} {g : α → β}
    (hm : ErrPoolPreserving m) :
    ErrPoolPreserving (m >>= fun a => pure (g a)) := by
  intro s
  rw [SeedM.bind_apply]
  rcases hms : m s with ⟨r, s1⟩
  have h1 := hm s
  rw [hms] at h1
  cases r with
  | ok a => intro he; cases he
  | error e => exact fun _ => h1 rfl

theorem poolPreserving_ite {α : Type} (c : Prop) [Decidable c] {m1 m2 : SeedM α}
    (h1 : PoolPreserving m1) (h2 : PoolPreserving m2) :
    PoolPreserving (if c then m1 else m2) := by
  by_cases hc : c
  · rwa [if_pos hc]
  · rwa [if_neg hc]

theorem poolPreserving_fresh : PoolPreserving fresh := fun _ => rfl

theorem poolPreserving_throwE {α : Type} (e : Err) : PoolPreserving (throwE (α := α) e) :=
  fun _ => rfl

theorem poolPreserving_rollbackTx {α : Type} (e : Err) :
    PoolPreserving (rollbackTx (α := α) e) := fun _ => rfl

theorem poolPreserving_beginTx (ω : Oracle) : PoolPreserving (beginTx ω) := by
  intro s
  unfold beginTx
  split <;> rfl

theorem poolPreserving_genesisHasOccurred (ω : Oracle) :
    PoolPreserving (genesisHasOccurred ω) := by
  intro s
  unfold genesisHasOccurred
  split
  · rfl
  · split
    · rfl
    · dsimp only
      split <;> rfl

theorem poolPreserving_insertRow (out : InsertOutcome) (w : Store → Store) (opName : String) :
    PoolPreserving (insertRow out w opName) := by
  intro s
  unfold insertRow
  cases out with
  | err => rfl
  | rows n => simp only; split <;> rfl

theorem poolPreserving_orRollback {α : Type} {k : ErrKind} {m : SeedM α}
    (hm : PoolPreserving m) : PoolPreserving (orRollback k m) := by
  intro s
  have h1 := hm s
  unfold orRollback
  rcases hms : m s with ⟨r, s1⟩
  rw [hms] at h1
  cases r with
  | ok a => exact h1
  | error e => exact h1

theorem errPoolPreserving_commitTx (ω : Oracle) : ErrPoolPreserving (commitTx ω) := by
  intro s
  unfold commitTx
  split
  · exact fun _ => rfl
  · intro he; cases he

theorem poolPreserving_AddNewKey (failKey : Bool) (a : App) (d : Nat) :
    PoolPreserving (App.AddNewKey failKey a d) := by
  unfold App.AddNewKey
  apply poolPreserving_ite
  · exact poolPreserving_throwE _
  · apply poolPreserving_bind poolPreserving_fresh
    intro c
    exact poolPreserving_pure _

theorem poolPreserving_createOrgKindDB (out : InsertOutcome) (extl desc : String)
    (adt : AuditStamp) : PoolPreserving (createOrgKindDB out extl desc adt) := by
  unfold createOrgKindDB
  apply poolPreserving_bind poolPreserving_fresh
  intro kid
  dsimp only
  apply poolPreserving_bind (poolPreserving_insertRow _ _ _)
  intro n
  apply poolPreserving_ite
  · exact poolPreserving_pure _
  · exact poolPreserving_throwE _

theorem poolPreserving_createOrgDB (out : InsertOutcome) (o : Org) (sa : SimpleAudit) :
    PoolPreserving (createOrgDB out o sa) := by
  unfold createOrgDB
  dsimp only
  apply poolPreserving_bind (poolPreserving_orRollback (poolPreserving_insertRow _ _ _))
  intro n
  apply poolPreserving_ite
  · exact poolPreserving_pure _
  · exact poolPreserving_rollbackTx _

theorem poolPreserving_createUserDB (out : InsertOutcome) (u : User) (adt : Audit) :
    PoolPreserving (createUserDB out u adt) := by
  unfold createUserDB
  dsimp only
  apply poolPreserving_bind (poolPreserving_orRollback (poolPreserving_insertRow _ _ _))
  intro n
  apply poolPreserving_ite
  · exact poolPreserving_pure _
  · exact poolPreserving_rollbackTx _

theorem poolPreserving_createPeterGabriel (o : Org) (a : App) :
    PoolPreserving (createPeterGabriel o a) := by
  unfold createPeterGabriel
  apply poolPreserving_bind poolPreserving_fresh
  intro x1
  apply poolPreserving_bind poolPreserving_fresh
  intro x2
  dsimp only
  apply poolPreserving_bind poolPreserving_fresh
  intro x3
  dsimp only
  apply poolPreserving_bind poolPreserving_fresh
  intro x4
  exact poolPreserving_pure _

theorem poolPreserving_createPhilCollins (o : Org) (a : App) :
    PoolPreserving (createPhilCollins o a) := by
  unfold createPhilCollins
  apply poolPreserving_bind poolPreserving_fresh
  intro x1
  apply poolPreserving_bind poolPreserving_fresh
  intro x2
  dsimp only
  apply poolPreserving_bind poolPreserving_fresh
  intro x3
  dsimp only
  apply poolPreserving_bind poolPreserving_fresh
  intro x4
  exact poolPreserving_pure _

theorem poolPreserving_insertAppAPIKeys (out : InsertOutcome) (appID : Nat)
    (adt : AuditStamp) (keys : List APIKey) :
    PoolPreserving (insertAppAPIKeys out appID adt keys) := by
  induction keys with
  | nil => exact poolPreserving_pure _
  | cons key rest ih =>
    unfold insertAppAPIKeys
    dsimp only
    apply poolPreserving_bind (poolPreserving_orRollback (poolPreserving_insertRow _ _ _))
    intro n
    apply poolPreserving_ite
    · exact ih
    · exact poolPreserving_rollbackTx _


theorem poolPreserving_seedGenesis (ω : Oracle) : PoolPreserving (seedGenesis ω) := by
  unfold seedGenesis
  apply poolPreserving_bind poolPreserving_fresh; intro orgID
  apply poolPreserving_bind poolPreserving_fresh; intro orgExtl
  dsimp only
  apply poolPreserving_bind poolPreserving_fresh; intro appID
  apply poolPreserving_bind poolPreserving_fresh; intro appExtl
  dsimp only
  apply poolPreserving_bind (poolPreserving_orRollback (poolPreserving_AddNewKey _ _ _))
  intro a
  apply poolPreserving_bind (poolPreserving_createPeterGabriel _ _)
  rintro ⟨pgUser, pgAudit⟩
  dsimp only
  apply poolPreserving_bind (poolPreserving_createPhilCollins _ _)
  rintro ⟨pcUser, pcAudit⟩
  dsimp only
  apply poolPreserving_bind
    (poolPreserving_orRollback (poolPreserving_createOrgKindDB _ _ _ _))
  intro genesisKindParams
  dsimp only
  apply poolPreserving_bind
    (poolPreserving_orRollback (poolPreserving_createOrgKindDB _ _ _ _))
  intro testKindParams
  dsimp only
  apply poolPreserving_bind
    (poolPreserving_orRollback (poolPreserving_createOrgKindDB _ _ _ _))
  intro x
  apply poolPreserving_bind (poolPreserving_createOrgDB _ _ _)
  intro u1
  dsimp only
  apply poolPreserving_bind (poolPreserving_orRollback (poolPreserving_insertRow _ _ _))
  intro rowsAffected
  apply poolPreserving_ite
  · apply poolPreserving_bind (poolPreserving_pure _); intro u2
    apply poolPreserving_bind (poolPreserving_insertAppAPIKeys _ _ _ _); intro u3
    apply poolPreserving_bind (poolPreserving_createUserDB _ _ _); intro u4
    apply poolPreserving_bind (poolPreserving_createUserDB _ _ _); intro u5
    exact poolPreserving_pure _
  · apply poolPreserving_bind (poolPreserving_rollbackTx _); intro u2
    apply poolPreserving_bind (poolPreserving_insertAppAPIKeys _ _ _ _); intro u3
    apply poolPreserving_bind (poolPreserving_createUserDB _ _ _); intro u4
    apply poolPreserving_bind (poolPreserving_createUserDB _ _ _); intro u5
    exact poolPreserving_pure _

theorem poolPreserving_seedTest (ω : Oracle) (k : OrgKind) : PoolPreserving (seedTest ω k) := by
  unfold seedTest
  apply poolPreserving_bind poolPreserving_fresh; intro orgID
  apply poolPreserving_bind poolPreserving_fresh; intro orgExtl
  dsimp only
  apply poolPreserving_bind poolPreserving_fresh; intro appID
  apply poolPreserving_bind poolPreserving_fresh; intro appExtl
  dsimp only
  apply poolPreserving_bind (poolPreserving_orRollback (poolPreserving_AddNewKey _ _ _))
  intro a
  apply poolPreserving_bind poolPreserving_fresh; intro prsnID
  apply poolPreserving_bind poolPreserving_fresh; intro pflID
  dsimp only
  apply poolPreserving_bind poolPreserving_fresh; intro userID
  dsimp only
  apply poolPreserving_bind poolPreserving_fresh; intro moment
  dsimp only
  apply poolPreserving_bind (poolPreserving_createOrgDB _ _ _)
  intro u1
  dsimp only
  apply poolPreserving_bind (poolPreserving_orRollback (poolPreserving_insertRow _ _ _))
  intro rowsAffected
  apply poolPreserving_ite
  · apply poolPreserving_bind (poolPreserving_pure _); intro u2
    apply poolPreserving_bind (poolPreserving_insertAppAPIKeys _ _ _ _); intro u3
    apply poolPreserving_bind (poolPreserving_createUserDB _ _ _); intro u4
    exact poolPreserving_pure _
  · apply poolPreserving_bind (poolPreserving_rollbackTx _); intro u2
    apply poolPreserving_bind (poolPreserving_insertAppAPIKeys _ _ _ _); intro u3
    apply poolPreserving_bind (poolPreserving_createUserDB _ _ _); intro u4
    exact poolPreserving_pure _

theorem errPoolPreserving_Seed (ω : Oracle) : ErrPoolPreserving (Seed ω) := by
  unfold Seed
  apply errPoolPreserving_bind (poolPreserving_genesisHasOccurred ω)
  intro u1
  apply errPoolPreserving_bind (poolPreserving_beginTx ω)
  intro u2
  apply errPoolPreserving_bind (poolPreserving_seedGenesis ω)
  rintro ⟨genesisSet, testKind⟩
  dsimp only
  apply errPoolPreserving_bind (poolPreserving_seedTest ω testKind)
  intro testSet
  exact errPoolPreserving_bind_pure (errPoolPreserving_commitTx ω)

/-! ## Shared execution lemmas -/

/-- A zero audit stamp for pre-existing rows in concrete test stores. -/
def stamp0 : AuditStamp := ⟨0, 0, 0⟩

/-- A store that already contains a genesis org-kind row. -/
def storeWithGenesisKind : Store :=
  ⟨[⟨0, "genesis", "genesis org kind", stamp0, stamp0⟩], [], [], [], []⟩

/-- A store that already contains an org row of kind genesis (but no genesis
org-kind row). -/
def storeWithGenesisOrg : Store :=
  ⟨[], [⟨0, 0, "genesis", "old genesis org", 0, "genesis", stamp0, stamp0⟩], [], [], []⟩

/-- A store with one standard org-kind row and neither a genesis org-kind
row nor a genesis org row. -/
def storeWithStandardKind : Store :=
  ⟨[⟨0, "standard", "standard org kind", stamp0, stamp0⟩], [], [], [], []⟩

theorem genesisHasOccurred_prior (db : Store) (ω : Oracle)
    (hk : ω.findKindErr = false) (ho : ω.findOrgsErr = false)
    (hprior : db.hasKindWithExtl genesisOrgTypeString = true ∨
              db.orgsOfKindExtl genesisOrgTypeString ≠ []) :
    genesisHasOccurred ω (SeedState.init db) =
      (Except.error (errE .Validation "No prior data should exist when executing Genesis Service"),
       SeedState.init db) := by
  unfold genesisHasOccurred
  rw [hk, ho]
  dsimp only [SeedState.init]
  rcases hprior with h | h
  · rw [h]
    simp
  · have hlen : ((db.orgsOfKindExtl genesisOrgTypeString).length == 0) = false := by
      simp [List.length_eq_zero, h]
    rw [hlen]
    simp

theorem seed_prior_data_validation (db : Store) (ω : Oracle)
    (hk : ω.findKindErr = false) (ho : ω.findOrgsErr = false)
    (hprior : db.hasKindWithExtl genesisOrgTypeString = true ∨
              db.orgsOfKindExtl genesisOrgTypeString ≠ []) :
    runSeed db ω =
      (Except.error (errE .Validation "No prior data should exist when executing Genesis Service"),
       SeedState.init db) := by
  unfold runSeed Seed
  rw [SeedM.bind_apply, genesisHasOccurred_prior db ω hk ho hprior]

theorem seed_error_preserves_pool (db : Store) (ω : Oracle)
    (h : isErr (runSeed db ω).1 = true) : (runSeed db ω).2.pool = db :=
  errPoolPreserving_Seed ω (SeedState.init db) h

theorem genesisHasOccurred_fresh (db : Store)
    (hk : db.hasKindWithExtl genesisOrgTypeString = false)
    (ho : db.orgsOfKindExtl genesisOrgTypeString = []) :
    genesisHasOccurred Oracle.ok (SeedState.init db) = (Except.ok (), SeedState.init db) := by
  unfold genesisHasOccurred Oracle.ok
  dsimp only [SeedState.init]
  rw [hk, ho]
  simp

set_option maxHeartbeats 2000000 in
theorem seed_fresh_shape (db : Store)
    (hk : db.hasKindWithExtl genesisOrgTypeString = false)
    (ho : db.orgsOfKindExtl genesisOrgTypeString = []) :
    runSeed db Oracle.ok =
      ((runSeed Store.empty Oracle.ok).1,
       ⟨db.append (runSeed Store.empty Oracle.ok).2.pool, Store.empty, false, 1, 1, 0, 25⟩) := by
  have h1 := genesisHasOccurred_fresh db hk ho
  unfold runSeed Seed
  rw [SeedM.bind_apply, h1]
  simp [genesisHasOccurred, Store.hasKindWithExtl, Store.orgsOfKindExtl, genesisOrgTypeString,
    beginTx, seedGenesis, seedTest, commitTx, fresh, throwE, rollbackTx, insertRow,
    orRollback, App.AddNewKey, createPeterGabriel, createPhilCollins, createGenesisOrgKind,
    createTestOrgKind, createStandardOrgKind, createOrgKindDB, createOrgDB, createUserDB,
    insertAppAPIKeys, newOrgResponse, newAppResponse, Audit.stamp, SeedState.init, Oracle.ok,
    Store.empty, Store.append, errE, errWrap, keyDeactivation,
    SeedM.bind_apply, SeedM.pure_apply]

/-! ## RBAC: permissions, roles and the authorizer -/

/-- A permission (`domain/auth` Permission, as laid out in the genesis
request document and the CUE schema): resource path, operation verb,
description, active flag. -/
structure Permission where
  resource : String
  operation : String
  description : String
  active : Bool
deriving DecidableEq

/-- A role: role code, description, active flag and its permissions. -/
structure Role where
  roleCd : String
  roleDescription : String
  active : Bool
  permissions : List Permission
deriving DecidableEq

/-- Modelled from the spec: `Authorize` — a principal is authorized for a
(resource, operation) pair iff at least one of its active roles contains an
active permission whose resource string and operation string both match the
request exactly (no wildcard or pattern matching). (The authorizer
implementation is not among the sources; only the permission set document
is.) -/
def authorize (rolesOf : List Role) (resource operation : String) : Bool :=
  rolesOf.any (fun r =>
    r.active && r.permissions.any (fun p =>
      p.active && (p.resource == resource) && (p.operation == operation)))

/-- The 11 permissions of the genesis request document
(config/genesis/request.json), in order. -/
def genesisRequestPermissions : List Permission :=
  [⟨"/api/v1/ping", "GET", "allows for calling the ping service to determine if system is up and running", true⟩,
   ⟨"/api/v1/logger", "GET", "allows for reading the logger state", true⟩,
   ⟨"/api/v1/logger", "PUT", "allows for updating the logger state", true⟩,
   ⟨"/api/v1/orgs", "POST", "allows for creating an organization", true⟩,
   ⟨"/api/v1/orgs", "PUT", "allows for updating an organization", true⟩,
   ⟨"/api/v1/orgs", "DELETE", "allows for deleting an organization", true⟩,
   ⟨"/api/v1/orgs", "GET", "allows for finding all organizations", true⟩,
   ⟨"/api/v1/orgs/{extlID}", "GET", "allows for finding an organization by external ID", true⟩,
   ⟨"/api/v1/apps", "POST", "allows for creating an app", true⟩,
   ⟨"/api/v1/permissions", "POST", "allows for creating a permission", true⟩,
   ⟨"/api/v1/permissions", "GET", "allows for finding all permissions", true⟩]

/-- The sysAdmin role of the genesis request document: active, carrying the
same 11 permissions. -/
def sysAdminRole : Role :=
  ⟨"sysAdmin", "System administrator role.", true, genesisRequestPermissions⟩

/-! ## The genesis request document and its CUE schema -/

/-- The `user` object of the genesis request document (schema.cue `#User`). -/
structure GenesisUser where
  email : String
  firstName : String
  lastName : String
deriving DecidableEq

/-- The genesis request document: a user plus permissions and roles arrays. -/
structure GenesisRequest where
  user : GenesisUser
  permissions : List Permission
  roles : List Role
deriving DecidableEq

/-- schema.cue `#User`: email, first_name and last_name must be specified
and non-empty. -/
def validUser (u : GenesisUser) : Bool :=
  (u.email != "") && (u.firstName != "") && (u.lastName != "")

/-- schema.cue `#Permission`: resource, operation and description must be
specified and non-empty; `active` is a boolean by typing. -/
def validPermission (p : Permission) : Bool :=
  (p.resource != "") && (p.operation != "") && (p.description != "")

/-- schema.cue `#Role`: role_cd and role_description must be specified and
non-empty, `active` is a boolean by typing, and every listed permission must
satisfy `#Permission`. -/
def validRole (r : Role) : Bool :=
  (r.roleCd != "") && (r.roleDescription != "") && r.permissions.all validPermission

/-- The genesis request document schema: the user object plus every entry of
the permissions and roles arrays must validate (schema.cue; the top-level
document shape is the one of config/genesis/request.json). -/
def validGenesisRequest (d : GenesisRequest) : Bool :=
  validUser d.user && d.permissions.all validPermission && d.roles.all validRole

/-- Modelled from the spec: the genesis request document is validated against
the CUE schema before being handed to the seeding path; a document failing
validation yields a `Validation` error and is not processed further. (The
CUE-driven loading code is not among the sources.) -/
def loadGenesisRequest (d : GenesisRequest) : Except Err GenesisRequest :=
  if validGenesisRequest d then Except.ok d
  else Except.error (errE .Validation "genesis request document failed schema validation")

/-! ## Environment configuration (command package) -/

/-- `Env` is a `uint8` enumeration; we model it as the underlying number. -/
abbrev Env := Nat

/-- `Existing` (0): the current environment is not overridden. -/
def Env.Existing : Env := 0

/-- `Local` (1): the local machine environment. -/
def Env.Local : Env := 1

/-- `Staging` (2): the staging (GCP) environment. -/
def Env.Staging : Env := 2

/-- `Production` (3): the production (GCP) environment. -/
def Env.Production : Env := 3

/-- `Invalid` (99): the invalid environment option. -/
def Env.Invalid : Env := 99

/-- `Env.String`: the name of each environment; unmatched values print as
"unknown_env_config". -/
def Env.String : Env → String
  | 0 => "existing"
  | 1 => "local"
  | 2 => "staging"
  | 3 => "production"
  | 99 => "invalid"
  | _ => "unknown_env_config"

/-- `ParseEnv` converts an env string into an `Env` value; it maps only
"existing", "local", "staging" and "prod", and returns `Invalid` for every
other string. -/
def ParseEnv (envStr : String) : Env :=
  match envStr with
  | "existing" => Env.Existing
  | "local" => Env.Local
  | "staging" => Env.Staging
  | "prod" => Env.Production
  | _ => Env.Invalid

/-! ## Movie store (datastore/moviestore) -/

/-- A movie row, with the columns `DB.FindAll` selects. -/
structure Movie where
  id : Nat
  extlID : String
  title : String
  year : Nat
  rated : String
  released : Nat
  runTime : Nat
  director : String
  writer : String
  createUsername : String
  createTimestamp : Nat
  updateUsername : String
  updateTimestamp : Nat
deriving DecidableEq

/-- `DB.FindAll` (moviestore.go): query every movie row (query failure is a
`Database` error), scan each row (scan failure is a `Database` error,
modelled by one flag for the loop), check `rows.Close` and `rows.Err`
(`Database` errors), and finally return `Validation` ("No rows returned")
when the scanned slice is empty; otherwise return the slice. -/
def FindAll (table : List Movie) (queryErr scanErr closeErr rowsErr : Bool) :
    Except Err (List Movie) :=
  if queryErr then Except.error (errE .Database "QueryContext")
  else if scanErr then Except.error (errE .Database "Scan")
  else if closeErr then Except.error (errE .Database "rows.Close")
  else if rowsErr then Except.error (errE .Database "rows.Err")
  else if table.length = 0 then Except.error (errE .Validation "No rows returned")
  else Except.ok table

/-! ## Claims -/

/-- C1: for every database state in which an org-kind row with external
identifier "genesis" exists or any org row of kind "genesis" exists (the two
precondition reads themselves succeeding), Seed returns the Validation error
"No prior data should exist when executing Genesis Service" and its final
state is exactly its initial state: the pool is untouched (zero writes) and
no transaction was ever begun, committed or rolled back — the check runs
before any transaction, so a database in which a genesis org exists is never
seeded again. -/
theorem c1_genesis_guard (db : Store) (ω : Oracle)
    (hk : ω.findKindErr = false) (ho : ω.findOrgsErr = false)
    (hprior : db.hasKindWithExtl genesisOrgTypeString = true ∨
              db.orgsOfKindExtl genesisOrgTypeString ≠ []) :
    runSeed db ω =
      (Except.error (errE .Validation "No prior data should exist when executing Genesis Service"),
       SeedState.init db) :=
  seed_prior_data_validation db ω hk ho hprior

/-- C1 witness: a store already holding a genesis org-kind row makes Seed
fail with the Validation error while leaving the state untouched. -/
theorem c1_genesis_guard_witness :
    (Oracle.ok.findKindErr = false) ∧ (Oracle.ok.findOrgsErr = false) ∧
    (storeWithGenesisKind.hasKindWithExtl genesisOrgTypeString = true ∨
     storeWithGenesisKind.orgsOfKindExtl genesisOrgTypeString ≠ []) ∧
    runSeed storeWithGenesisKind Oracle.ok =
      (Except.error (errE .Validation "No prior data should exist when executing Genesis Service"),
       SeedState.init storeWithGenesisKind) :=
  ⟨rfl, rfl, Or.inl (by decide),
   c1_genesis_guard storeWithGenesisKind Oracle.ok rfl rfl (Or.inl (by decide))⟩

/-- C2 counterexample: the claim quantifies over every database with no
genesis org-kind row and no genesis org row, but a database already holding
a standard org-kind row satisfies that precondition, Seed succeeds on it,
and it is left with 4 org-kind rows — not "exactly 3" as the claim states. -/
theorem c2_counterexample :
    isErr (runSeed storeWithStandardKind Oracle.ok).1 = false
    ∧ (runSeed storeWithStandardKind Oracle.ok).2.pool.orgKinds.length ≠ 3 := by
  rw [seed_fresh_shape storeWithStandardKind (by decide) (by decide)]
  constructor
  · simp [genesisHasOccurred, Store.hasKindWithExtl, Store.orgsOfKindExtl, genesisOrgTypeString,
      runSeed, Seed, beginTx, seedGenesis, seedTest, commitTx, fresh, throwE, rollbackTx,
      insertRow, orRollback, App.AddNewKey, createPeterGabriel, createPhilCollins,
      createGenesisOrgKind, createTestOrgKind, createStandardOrgKind, createOrgKindDB,
      createOrgDB, createUserDB, insertAppAPIKeys, newOrgResponse, newAppResponse,
      Audit.stamp, SeedState.init, Oracle.ok, Store.empty, Store.append, errE, errWrap,
      keyDeactivation, SeedM.bind_apply, SeedM.pure_apply, isErr]
  · simp [genesisHasOccurred, Store.hasKindWithExtl, Store.orgsOfKindExtl, genesisOrgTypeString,
      runSeed, Seed, beginTx, seedGenesis, seedTest, commitTx, fresh, throwE, rollbackTx,
      insertRow, orRollback, App.AddNewKey, createPeterGabriel, createPhilCollins,
      createGenesisOrgKind, createTestOrgKind, createStandardOrgKind, createOrgKindDB,
      createOrgDB, createUserDB, insertAppAPIKeys, newOrgResponse, newAppResponse,
      Audit.stamp, SeedState.init, Oracle.ok, Store.empty, Store.append, errE, errWrap,
      keyDeactivation, SeedM.bind_apply, SeedM.pure_apply, storeWithStandardKind, stamp0]

/-- C2 (amended): for every database with no genesis org-kind row and no
genesis org row, under a well-behaved store Seed succeeds and adds exactly 3
org-kind rows (genesis, test, standard, in order), 2 org rows (named genesis
and test), 2 app rows (WOPR and test; the ids 2 and 18 are the fresh-counter
values the model draws for them), exactly one api-key row per seeded app
(the api-key rows reference exactly the two new app ids), and 3 user rows
(pgabriel, pcollins, shackett). On the empty database it therefore leaves
exactly those rows and nothing else. -/
theorem c2_seed_fresh (db : Store)
    (hk : db.hasKindWithExtl genesisOrgTypeString = false)
    (ho : db.orgsOfKindExtl genesisOrgTypeString = []) :
    isErr (runSeed db Oracle.ok).1 = false
    ∧ (runSeed db Oracle.ok).2.pool.orgKinds.map (fun k => k.extlID) =
        db.orgKinds.map (fun k => k.extlID) ++ ["genesis", "test", "standard"]
    ∧ (runSeed db Oracle.ok).2.pool.orgs.map (fun o => o.name) =
        db.orgs.map (fun o => o.name) ++ ["genesis", "test"]
    ∧ (runSeed db Oracle.ok).2.pool.apps.map (fun a => (a.id, a.name)) =
        db.apps.map (fun a => (a.id, a.name)) ++ [(2, "WOPR"), (18, "test")]
    ∧ (runSeed db Oracle.ok).2.pool.appApiKeys.map (fun k => k.appID) =
        db.appApiKeys.map (fun k => k.appID) ++ [2, 18]
    ∧ (runSeed db Oracle.ok).2.pool.users.map (fun u => u.username) =
        db.users.map (fun u => u.username) ++ ["pgabriel", "pcollins", "shackett"] := by
  rw [seed_fresh_shape db hk ho]
  simp [genesisHasOccurred, Store.hasKindWithExtl, Store.orgsOfKindExtl, genesisOrgTypeString,
    runSeed, Seed, beginTx, seedGenesis, seedTest, commitTx, fresh, throwE, rollbackTx,
    insertRow, orRollback, App.AddNewKey, createPeterGabriel, createPhilCollins,
    createGenesisOrgKind, createTestOrgKind, createStandardOrgKind, createOrgKindDB,
    createOrgDB, createUserDB, insertAppAPIKeys, newOrgResponse, newAppResponse,
    Audit.stamp, SeedState.init, Oracle.ok, Store.empty, Store.append, errE, errWrap,
    keyDeactivation, SeedM.bind_apply, SeedM.pure_apply, isErr,
    trimSpace_pgabriel, trimSpace_pcollins, trimSpace_shackett]

/-- C2 witness: the amended claim instantiated at the empty database. -/
theorem c2_seed_fresh_witness :
    isErr (runSeed Store.empty Oracle.ok).1 = false
    ∧ (runSeed Store.empty Oracle.ok).2.pool.orgKinds.map (fun k => k.extlID) =
        Store.empty.orgKinds.map (fun k => k.extlID) ++ ["genesis", "test", "standard"]
    ∧ (runSeed Store.empty Oracle.ok).2.pool.orgs.map (fun o => o.name) =
        Store.empty.orgs.map (fun o => o.name) ++ ["genesis", "test"]
    ∧ (runSeed Store.empty Oracle.ok).2.pool.apps.map (fun a => (a.id, a.name)) =
        Store.empty.apps.map (fun a => (a.id, a.name)) ++ [(2, "WOPR"), (18, "test")]
    ∧ (runSeed Store.empty Oracle.ok).2.pool.appApiKeys.map (fun k => k.appID) =
        Store.empty.appApiKeys.map (fun k => k.appID) ++ [2, 18]
    ∧ (runSeed Store.empty Oracle.ok).2.pool.users.map (fun u => u.username) =
        Store.empty.users.map (fun u => u.username) ++ ["pgabriel", "pcollins", "shackett"] :=
  c2_seed_fresh Store.empty (by decide) (by decide)

/-- C3: whenever any step of a Seed attempt fails — for any database and any
store behavior — the pool after Seed equals the pool before it, so no org,
app, org-kind, api-key or user row from the attempt persists; in particular,
a store error on the root app's api-key insert yields an error, exactly one
rollback of the transaction, and an unchanged pool. -/
theorem c3_rollback_atomicity :
    (∀ (db : Store) (ω : Oracle), isErr (runSeed db ω).1 = true → (runSeed db ω).2.pool = db)
    ∧ isErr (runSeed Store.empty { Oracle.ok with genesisApiKeyIns := .err }).1 = true
    ∧ (runSeed Store.empty { Oracle.ok with genesisApiKeyIns := .err }).2.rollbacks = 1
    ∧ (runSeed Store.empty { Oracle.ok with genesisApiKeyIns := .err }).2.pool = Store.empty := by
  refine ⟨seed_error_preserves_pool, ?_⟩
  simp [genesisHasOccurred, Store.hasKindWithExtl, Store.orgsOfKindExtl, genesisOrgTypeString,
    runSeed, Seed, beginTx, seedGenesis, seedTest, commitTx, fresh, throwE, rollbackTx,
    insertRow, orRollback, App.AddNewKey, createPeterGabriel, createPhilCollins,
    createGenesisOrgKind, createTestOrgKind, createStandardOrgKind, createOrgKindDB,
    createOrgDB, createUserDB, insertAppAPIKeys, newOrgResponse, newAppResponse,
    Audit.stamp, SeedState.init, Oracle.ok, Store.empty, Store.append, errE, errWrap,
    keyDeactivation, SeedM.bind_apply, SeedM.pure_apply, isErr]

/-- C3 witness: a BeginTx failure is an error, and the pool is unchanged. -/
theorem c3_rollback_atomicity_witness :
    (runSeed Store.empty { Oracle.ok with beginTxErr := true }).2.pool = Store.empty :=
  c3_rollback_atomicity.1 Store.empty { Oracle.ok with beginTxErr := true } (by decide)

set_option maxHeartbeats 4000000 in
/-- C4: for each single-row insert of the seeding path that checks its
affected-row count (the app insert and the app-api-key insert of both the
genesis and the test set), a driver report of any count n other than exactly
1 — with the SQL statement itself returning no error — makes Seed fail with
the Database error "rows affected should be 1, actual: n", roll the whole
transaction back exactly once, and leave the pool unchanged. -/
theorem c4_rows_affected_guard (n : Int) (h : n ≠ 1) :
    ((runSeed Store.empty { Oracle.ok with genesisAppIns := .rows n }).1 =
        Except.error (errE .Database ("rows affected should be 1, actual: " ++ toString n))
      ∧ (runSeed Store.empty { Oracle.ok with genesisAppIns := .rows n }).2.rollbacks = 1
      ∧ (runSeed Store.empty { Oracle.ok with genesisAppIns := .rows n }).2.pool = Store.empty)
    ∧ ((runSeed Store.empty { Oracle.ok with genesisApiKeyIns := .rows n }).1 =
        Except.error (errE .Database ("rows affected should be 1, actual: " ++ toString n))
      ∧ (runSeed Store.empty { Oracle.ok with genesisApiKeyIns := .rows n }).2.rollbacks = 1
      ∧ (runSeed Store.empty { Oracle.ok with genesisApiKeyIns := .rows n }).2.pool = Store.empty)
    ∧ ((runSeed Store.empty { Oracle.ok with testAppIns := .rows n }).1 =
        Except.error (errE .Database ("rows affected should be 1, actual: " ++ toString n))
      ∧ (runSeed Store.empty { Oracle.ok with testAppIns := .rows n }).2.rollbacks = 1
      ∧ (runSeed Store.empty { Oracle.ok with testAppIns := .rows n }).2.pool = Store.empty)
    ∧ ((runSeed Store.empty { Oracle.ok with testApiKeyIns := .rows n }).1 =
        Except.error (errE .Database ("rows affected should be 1, actual: " ++ toString n))
      ∧ (runSeed Store.empty { Oracle.ok with testApiKeyIns := .rows n }).2.rollbacks = 1
      ∧ (runSeed Store.empty { Oracle.ok with testApiKeyIns := .rows n }).2.pool = Store.empty) := by
  simp [genesisHasOccurred, Store.hasKindWithExtl, Store.orgsOfKindExtl, genesisOrgTypeString,
    runSeed, Seed, beginTx, seedGenesis, seedTest, commitTx, fresh, throwE, rollbackTx,
    insertRow, orRollback, App.AddNewKey, createPeterGabriel, createPhilCollins,
    createGenesisOrgKind, createTestOrgKind, createStandardOrgKind, createOrgKindDB,
    createOrgDB, createUserDB, insertAppAPIKeys, newOrgResponse, newAppResponse,
    Audit.stamp, SeedState.init, Oracle.ok, Store.empty, Store.append, errE, errWrap,
    keyDeactivation, SeedM.bind_apply, SeedM.pure_apply, h]

/-- C4 witness: an affected-row count of 0 on the genesis app insert. -/
theorem c4_rows_affected_guard_witness :
    (runSeed Store.empty { Oracle.ok with genesisAppIns := .rows 0 }).1 =
      Except.error (errE .Database ("rows affected should be 1, actual: " ++ toString (0 : Int))) :=
  (c4_rows_affected_guard 0 (by decide)).1.1

/-- C5 counterexample: the claim says every database error causes a
rollback, but a database error on the precondition read (FindOrgKindByExtlID
failing before any transaction exists) is returned as a Database error while
the final state equals the initial one — zero rollbacks were performed. -/
theorem c5_counterexample :
    resKind (runSeed Store.empty { Oracle.ok with findKindErr := true }).1 = some .Database
    ∧ (runSeed Store.empty { Oracle.ok with findKindErr := true }).2.rollbacks = 0
    ∧ (runSeed Store.empty { Oracle.ok with findKindErr := true }).2 = SeedState.init Store.empty := by
  refine ⟨?_, ?_, ?_⟩ <;>
    simp [genesisHasOccurred, Store.hasKindWithExtl, Store.orgsOfKindExtl, genesisOrgTypeString,
      runSeed, Seed, beginTx, seedGenesis, seedTest, commitTx, fresh, throwE, rollbackTx,
      insertRow, orRollback, App.AddNewKey, createPeterGabriel, createPhilCollins,
      createGenesisOrgKind, createTestOrgKind, createStandardOrgKind, createOrgKindDB,
      createOrgDB, createUserDB, insertAppAPIKeys, newOrgResponse, newAppResponse,
      Audit.stamp, SeedState.init, Oracle.ok, Store.empty, Store.append, errE, errWrap,
      keyDeactivation, SeedM.bind_apply, SeedM.pure_apply, resKind]

set_option maxHeartbeats 1600000 in
/-- C5 (amended): Seed classifies every failure it returns by kind — a
database error during the precondition reads or on BeginTx is returned as
Database before any transaction is begun, with no rollback; a database error
from any in-transaction insert is wrapped as Database and rolls the
transaction back, leaving the pool unchanged; a key-generation failure
(AddNewKey) is wrapped as Internal and rolls back; and the prior-data
precondition violation is returned as Validation before any transaction
begins, with no rollback performed for it. -/
theorem c5_error_classification :
    (resKind (runSeed Store.empty { Oracle.ok with findKindErr := true }).1 = some .Database
      ∧ (runSeed Store.empty { Oracle.ok with findKindErr := true }).2 = SeedState.init Store.empty)
    ∧ (resKind (runSeed Store.empty { Oracle.ok with findOrgsErr := true }).1 = some .Database
      ∧ (runSeed Store.empty { Oracle.ok with findOrgsErr := true }).2 = SeedState.init Store.empty)
    ∧ (resKind (runSeed storeWithGenesisKind Oracle.ok).1 = some .Validation
      ∧ (runSeed storeWithGenesisKind Oracle.ok).2 = SeedState.init storeWithGenesisKind)
    ∧ (resKind (runSeed Store.empty { Oracle.ok with beginTxErr := true }).1 = some .Database
      ∧ (runSeed Store.empty { Oracle.ok with beginTxErr := true }).2 = SeedState.init Store.empty)
    ∧ (resKind (runSeed Store.empty { Oracle.ok with genesisAddKeyErr := true }).1 = some .Internal
      ∧ (runSeed Store.empty { Oracle.ok with genesisAddKeyErr := true }).2.rollbacks = 1
      ∧ (runSeed Store.empty { Oracle.ok with genesisAddKeyErr := true }).2.pool = Store.empty)
    ∧ (resKind (runSeed Store.empty { Oracle.ok with testAddKeyErr := true }).1 = some .Internal
      ∧ (runSeed Store.empty { Oracle.ok with testAddKeyErr := true }).2.rollbacks = 1
      ∧ (runSeed Store.empty { Oracle.ok with testAddKeyErr := true }).2.pool = Store.empty)
    ∧ (resKind (runSeed Store.empty { Oracle.ok with genesisKindIns := .err }).1 = some .Database
      ∧ (runSeed Store.empty { Oracle.ok with genesisKindIns := .err }).2.rollbacks = 1
      ∧ (runSeed Store.empty { Oracle.ok with genesisKindIns := .err }).2.pool = Store.empty)
    ∧ (resKind (runSeed Store.empty { Oracle.ok with testKindIns := .err }).1 = some .Database
      ∧ (runSeed Store.empty { Oracle.ok with testKindIns := .err }).2.rollbacks = 1
      ∧ (runSeed Store.empty { Oracle.ok with testKindIns := .err }).2.pool = Store.empty)
    ∧ (resKind (runSeed Store.empty { Oracle.ok with standardKindIns := .err }).1 = some .Database
      ∧ (runSeed Store.empty { Oracle.ok with standardKindIns := .err }).2.rollbacks = 1
      ∧ (runSeed Store.empty { Oracle.ok with standardKindIns := .err }).2.pool = Store.empty)
    ∧ (resKind (runSeed Store.empty { Oracle.ok with genesisOrgIns := .err }).1 = some .Database
      ∧ (runSeed Store.empty { Oracle.ok with genesisOrgIns := .err }).2.rollbacks = 1
      ∧ (runSeed Store.empty { Oracle.ok with genesisOrgIns := .err }).2.pool = Store.empty)
    ∧ (resKind (runSeed Store.empty { Oracle.ok with genesisAppIns := .err }).1 = some .Database
      ∧ (runSeed Store.empty { Oracle.ok with genesisAppIns := .err }).2.rollbacks = 1
      ∧ (runSeed Store.empty { Oracle.ok with genesisAppIns := .err }).2.pool = Store.empty)
    ∧ (resKind (runSeed Store.empty { Oracle.ok with genesisApiKeyIns := .err }).1 = some .Database
      ∧ (runSeed Store.empty { Oracle.ok with genesisApiKeyIns := .err }).2.rollbacks = 1
      ∧ (runSeed Store.empty { Oracle.ok with genesisApiKeyIns := .err }).2.pool = Store.empty)
    ∧ (resKind (runSeed Store.empty { Oracle.ok with gabrielUserIns := .err }).1 = some .Database
      ∧ (runSeed Store.empty { Oracle.ok with gabrielUserIns := .err }).2.rollbacks = 1
      ∧ (runSeed Store.empty { Oracle.ok with gabrielUserIns := .err }).2.pool = Store.empty)
    ∧ (resKind (runSeed Store.empty { Oracle.ok with collinsUserIns := .err }).1 = some .Database
      ∧ (runSeed Store.empty { Oracle.ok with collinsUserIns := .err }).2.rollbacks = 1
      ∧ (runSeed Store.empty { Oracle.ok with collinsUserIns := .err }).2.pool = Store.empty)
    ∧ (resKind (runSeed Store.empty { Oracle.ok with testOrgIns := .err }).1 = some .Database
      ∧ (runSeed Store.empty { Oracle.ok with testOrgIns := .err }).2.rollbacks = 1
      ∧ (runSeed Store.empty { Oracle.ok with testOrgIns := .err }).2.pool = Store.empty)
    ∧ (resKind (runSeed Store.empty { Oracle.ok with testAppIns := .err }).1 = some .Database
      ∧ (runSeed Store.empty { Oracle.ok with testAppIns := .err }).2.rollbacks = 1
      ∧ (runSeed Store.empty { Oracle.ok with testAppIns := .err }).2.pool = Store.empty)
    ∧ (resKind (runSeed Store.empty { Oracle.ok with testApiKeyIns := .err }).1 = some .Database
      ∧ (runSeed Store.empty { Oracle.ok with testApiKeyIns := .err }).2.rollbacks = 1
      ∧ (runSeed Store.empty { Oracle.ok with testApiKeyIns := .err }).2.pool = Store.empty)
    ∧ (resKind (runSeed Store.empty { Oracle.ok with testUserIns := .err }).1 = some .Database
      ∧ (runSeed Store.empty { Oracle.ok with testUserIns := .err }).2.rollbacks = 1
      ∧ (runSeed Store.empty { Oracle.ok with testUserIns := .err }).2.pool = Store.empty) := by
  refine ⟨?_, ?_, ?_, ?_, ?_, ?_, ?_, ?_, ?_, ?_, ?_, ?_, ?_, ?_, ?_, ?_, ?_, ?_⟩ <;>
    simp [genesisHasOccurred, Store.hasKindWithExtl, Store.orgsOfKindExtl, genesisOrgTypeString,
      runSeed, Seed, beginTx, seedGenesis, seedTest, commitTx, fresh, throwE, rollbackTx,
      insertRow, orRollback, App.AddNewKey, createPeterGabriel, createPhilCollins,
      createGenesisOrgKind, createTestOrgKind, createStandardOrgKind, createOrgKindDB,
      createOrgDB, createUserDB, insertAppAPIKeys, newOrgResponse, newAppResponse,
      Audit.stamp, SeedState.init, Oracle.ok, Store.empty, Store.append, errE, errWrap,
      keyDeactivation, SeedM.bind_apply, SeedM.pure_apply, resKind,
      storeWithGenesisKind, stamp0]

/-- C6: the authorizer allows a request iff at least one of the principal's
active roles contains an active permission whose resource string and
operation string both match exactly; with the genesis request document's
permission set, a principal holding role sysAdmin is allowed (resource
"/api/v1/orgs", operation "POST") and denied (resource "/api/v1/orgs",
operation "PATCH"). -/
theorem c6_authorize_exact_match :
    (∀ (rs : List Role) (res op : String),
        authorize rs res op = true ↔
          ∃ r, r ∈ rs ∧ r.active = true ∧
            ∃ p, p ∈ r.permissions ∧ p.active = true ∧ p.resource = res ∧ p.operation = op)
    ∧ authorize [sysAdminRole] "/api/v1/orgs" "POST" = true
    ∧ authorize [sysAdminRole] "/api/v1/orgs" "PATCH" = false := by
  refine ⟨?_, by decide, by decide⟩
  intro rs res op
  simp only [authorize, List.any_eq_true, Bool.and_eq_true, beq_iff_eq]
  constructor
  · rintro ⟨r, hr, hra, p, hp, ⟨⟨hpa, hres⟩, hop⟩⟩
    exact ⟨r, hr, hra, p, hp, hpa, hres, hop⟩
  · rintro ⟨r, hr, hra, p, hp, hpa, hres, hop⟩
    exact ⟨r, hr, hra, p, hp, ⟨⟨hpa, hres⟩, hop⟩⟩

/-- C7 counterexample: in the seeded genesis set, the second admin's user
row (pcollins) carries create attribution (app 2, user 11, moment 12) while
the genesis org row carries (app 2, user 7, moment 8) — the two audits
differ, so not every genesis-set row carries the single audit built from the
root app and the first admin user. -/
theorem c7_counterexample :
    ((runSeed Store.empty Oracle.ok).2.pool.users.map (fun u => (u.username, u.createAudit)))[1]? =
      some ("pcollins", ⟨2, 11, 12⟩)
    ∧ ((runSeed Store.empty Oracle.ok).2.pool.orgs.map (fun o => o.createAudit))[0]? =
      some ⟨2, 7, 8⟩
    ∧ ((⟨2, 11, 12⟩ : AuditStamp) ≠ ⟨2, 7, 8⟩) := by
  refine ⟨?_, ?_, by decide⟩ <;>
    simp [genesisHasOccurred, Store.hasKindWithExtl, Store.orgsOfKindExtl, genesisOrgTypeString,
      runSeed, Seed, beginTx, seedGenesis, seedTest, commitTx, fresh, throwE, rollbackTx,
      insertRow, orRollback, App.AddNewKey, createPeterGabriel, createPhilCollins,
      createGenesisOrgKind, createTestOrgKind, createStandardOrgKind, createOrgKindDB,
      createOrgDB, createUserDB, insertAppAPIKeys, newOrgResponse, newAppResponse,
      Audit.stamp, SeedState.init, Oracle.ok, Store.empty, Store.append, errE, errWrap,
      keyDeactivation, SeedM.bind_apply, SeedM.pure_apply,
      trimSpace_pgabriel, trimSpace_pcollins, trimSpace_shackett]

set_option maxHeartbeats 1600000 in
/-- C7 (amended): during the genesis-set step one audit is built from the
root app (row id 2), the first admin user (row id 7) and the current moment,
wrapped as a SimpleAudit with First = Last — the genesis org row, the WOPR
app row, its api-key row and the first admin's user row all carry exactly
that audit as both create and update attribution; the second admin's user
row instead carries an audit built from the root app and the second admin
user (row id 11), and the test-set rows carry the test audit (app 18, user
23). The ids are the model's fresh-counter draws standing for the random
UUIDs. -/
theorem c7_audit_attribution (db : Store)
    (hk : db.hasKindWithExtl genesisOrgTypeString = false)
    (ho : db.orgsOfKindExtl genesisOrgTypeString = []) :
    (runSeed db Oracle.ok).2.pool.orgs.map (fun o => (o.name, o.createAudit, o.updateAudit)) =
      db.orgs.map (fun o => (o.name, o.createAudit, o.updateAudit)) ++
        [("genesis", ⟨2, 7, 8⟩, ⟨2, 7, 8⟩), ("test", ⟨18, 23, 24⟩, ⟨18, 23, 24⟩)]
    ∧ (runSeed db Oracle.ok).2.pool.apps.map (fun a => (a.id, a.name, a.createAudit, a.updateAudit)) =
      db.apps.map (fun a => (a.id, a.name, a.createAudit, a.updateAudit)) ++
        [(2, "WOPR", ⟨2, 7, 8⟩, ⟨2, 7, 8⟩), (18, "test", ⟨18, 23, 24⟩, ⟨18, 23, 24⟩)]
    ∧ (runSeed db Oracle.ok).2.pool.appApiKeys.map (fun k => (k.appID, k.createAudit, k.updateAudit)) =
      db.appApiKeys.map (fun k => (k.appID, k.createAudit, k.updateAudit)) ++
        [(2, ⟨2, 7, 8⟩, ⟨2, 7, 8⟩), (18, ⟨18, 23, 24⟩, ⟨18, 23, 24⟩)]
    ∧ (runSeed db Oracle.ok).2.pool.users.map (fun u => (u.id, u.username, u.createAudit, u.updateAudit)) =
      db.users.map (fun u => (u.id, u.username, u.createAudit, u.updateAudit)) ++
        [(7, "pgabriel", ⟨2, 7, 8⟩, ⟨2, 7, 8⟩), (11, "pcollins", ⟨2, 11, 12⟩, ⟨2, 11, 12⟩),
         (23, "shackett", ⟨18, 23, 24⟩, ⟨18, 23, 24⟩)]
    ∧ ((⟨2, 11, 12⟩ : AuditStamp) ≠ ⟨2, 7, 8⟩) := by
  rw [seed_fresh_shape db hk ho]
  refine ⟨?_, ?_, ?_, ?_, by decide⟩ <;>
    simp [genesisHasOccurred, Store.hasKindWithExtl, Store.orgsOfKindExtl, genesisOrgTypeString,
      runSeed, Seed, beginTx, seedGenesis, seedTest, commitTx, fresh, throwE, rollbackTx,
      insertRow, orRollback, App.AddNewKey, createPeterGabriel, createPhilCollins,
      createGenesisOrgKind, createTestOrgKind, createStandardOrgKind, createOrgKindDB,
      createOrgDB, createUserDB, insertAppAPIKeys, newOrgResponse, newAppResponse,
      Audit.stamp, SeedState.init, Oracle.ok, Store.empty, Store.append, errE, errWrap,
      keyDeactivation, SeedM.bind_apply, SeedM.pure_apply,
      trimSpace_pgabriel, trimSpace_pcollins, trimSpace_shackett]

/-- C7 witness: the amended claim instantiated at the empty database (user
rows conjunct). -/
theorem c7_audit_attribution_witness :
    (runSeed Store.empty Oracle.ok).2.pool.users.map (fun u => (u.id, u.username, u.createAudit, u.updateAudit)) =
      Store.empty.users.map (fun u => (u.id, u.username, u.createAudit, u.updateAudit)) ++
        [(7, "pgabriel", ⟨2, 7, 8⟩, ⟨2, 7, 8⟩), (11, "pcollins", ⟨2, 11, 12⟩, ⟨2, 11, 12⟩),
         (23, "shackett", ⟨18, 23, 24⟩, ⟨18, 23, 24⟩)] :=
  (c7_audit_attribution Store.empty (by decide) (by decide)).2.2.2.1

/-- The genesis request document of config/genesis/request.json: Otto
Maddox as the user, the 11 permissions and the sysAdmin role. -/
def genesisRequestDocument : GenesisRequest :=
  ⟨⟨"otto.maddox@gmail.com", "Otto", "Maddox"⟩, genesisRequestPermissions, [sysAdminRole]⟩

/-- C8: a genesis request document is accepted by the CUE schema iff
user.email, user.first_name and user.last_name are all non-empty, every
permission has non-empty resource, operation and description, and every role
has non-empty role_cd and role_description with schema-valid permissions
(the active flags are booleans by typing); a failing document yields a
Validation error from the loader and is never handed onward, a valid one is
handed over unchanged, and the repository's own request document validates. -/
theorem c8_schema_validation (d : GenesisRequest) :
    (validGenesisRequest d = true ↔
      (d.user.email ≠ "" ∧ d.user.firstName ≠ "" ∧ d.user.lastName ≠ "" ∧
       (∀ p ∈ d.permissions, p.resource ≠ "" ∧ p.operation ≠ "" ∧ p.description ≠ "") ∧
       (∀ r ∈ d.roles, r.roleCd ≠ "" ∧ r.roleDescription ≠ "" ∧
         ∀ p ∈ r.permissions, p.resource ≠ "" ∧ p.operation ≠ "" ∧ p.description ≠ "")))
    ∧ (validGenesisRequest d = false →
        loadGenesisRequest d =
          Except.error (errE .Validation "genesis request document failed schema validation"))
    ∧ (validGenesisRequest d = true → loadGenesisRequest d = Except.ok d)
    ∧ validGenesisRequest genesisRequestDocument = true := by
  refine ⟨?_, ?_, ?_, by decide⟩
  · simp [validGenesisRequest, validUser, validPermission, validRole, List.all_eq_true,
      Bool.and_eq_true, bne_iff_ne, and_assoc]
  · intro h
    simp [loadGenesisRequest, h]
  · intro h
    simp [loadGenesisRequest, h]

/-- C8 witness: a document with an empty email is rejected with the
Validation error. -/
theorem c8_schema_validation_witness :
    loadGenesisRequest ⟨⟨"", "Otto", "Maddox"⟩, [], []⟩ =
      Except.error (errE .Validation "genesis request document failed schema validation") :=
  (c8_schema_validation ⟨⟨"", "Otto", "Maddox"⟩, [], []⟩).2.1 (by decide)

/-- C9: ParseEnv is a left inverse of Env.String on Existing, Local and
Staging, but not on Production: Production prints as "production" while
ParseEnv maps only "prod" to Production and sends every unrecognized string
— "production" included — to Invalid. -/
theorem c9_parse_env_partial_inverse :
    ParseEnv (Env.String Env.Existing) = Env.Existing
    ∧ ParseEnv (Env.String Env.Local) = Env.Local
    ∧ ParseEnv (Env.String Env.Staging) = Env.Staging
    ∧ Env.String Env.Production = "production"
    ∧ ParseEnv "prod" = Env.Production
    ∧ ParseEnv (Env.String Env.Production) = Env.Invalid
    ∧ Env.Invalid ≠ Env.Production := by decide

/-- A sample movie row for the FindAll witness. -/
def sampleMovie : Movie :=
  ⟨0, "extl-1", "Repo Man", 1984, "R", 0, 92, "Alex Cox", "Alex Cox", "otto", 0, "otto", 0⟩

/-- C10: FindAll never returns an empty movie list with a nil error — on an
empty movie table (with the query itself succeeding) it returns the
Validation error "No rows returned", and every successful result equals the
table queried and contains at least one movie. -/
theorem c10_find_all_no_empty_success :
    FindAll [] false false false false = Except.error (errE .Validation "No rows returned")
    ∧ (∀ (table : List Movie) (q s c r : Bool) (ms : List Movie),
        FindAll table q s c r = Except.ok ms → ms = table ∧ ms ≠ []) := by
  refine ⟨rfl, ?_⟩
  intro table q s c r ms h
  unfold FindAll at h
  split_ifs at h with h1 h2 h3 h4 h5
  injection h with h6
  subst h6
  refine ⟨rfl, ?_⟩
  intro hnil
  exact h5 (by simp [hnil])

/-- C10 witness: FindAll on a one-row table succeeds with that row. -/
theorem c10_find_all_no_empty_success_witness :
    FindAll [sampleMovie] false false false false = Except.ok [sampleMovie]
    ∧ [sampleMovie] ≠ ([] : List Movie) :=
  ⟨rfl, (c10_find_all_no_empty_success.2 [sampleMovie] false false false false [sampleMovie] rfl).2⟩

end GoApiBasic
